import Mathlib

/-!
Verification of the Dietitian-Agent session core.

The program under study is a thin HTTP layer (src/api.py) over a shared
in-process session store: a pair of dictionaries mapping a session id to
an agent chain and to a conversation memory (the transcript).  The large
language model call is an opaque external capability; here it is a
parameter of type `Model`, a function from the chain credential, the
existing transcript and the new user message to either a reply or an
exception message.

Each endpoint is embedded as a pure function from the request data and
the current `AppState` to the next `AppState` together with an
`Except ApiError` response, mirroring the source line by line:
credential resolution (`get_api_key`), request validation (the pydantic
field validators), then the handler body.  Wall-clock timestamps in the
responses are environment effects and are omitted from the embedding.
-/

namespace Dietitian

/-- Speaker role of one transcript turn (langchain HumanMessage / AIMessage). -/
inductive Role where
  | user
  | assistant
  deriving DecidableEq, Repr

/-- One message of a conversation transcript. -/
structure Turn where
  role : Role
  content : String
  deriving DecidableEq, Repr

/-- A ConversationBufferMemory is, observably, its ordered transcript. -/
abbrev Memory := List Turn

/-- The agent chain returned by `get_diet_agent_chain(api_key)` is a closure
over the credential it was built with; the credential is its only
distinguishing data, so the chain is modelled by that string. -/
abbrev Chain := String

/-- The process-wide `app_state` of src/api.py: two insertion-ordered maps
(`agent_chains`, `memories`) keyed by session id, modelled as association
lists with unique keys.  The `startup_time` field only feeds the health
endpoint and is omitted. -/
structure AppState where
  agentChains : List (String × Chain)
  memories : List (String × Memory)
  deriving DecidableEq, Repr

/-- The opaque model capability: given the chain credential, the chat history
and the new input, produce a reply or fail with an exception message. -/
abbrev Model := Chain → Memory → String → Except String String

/-- The error responses the endpoints can produce, by the spec taxonomy;
each constructor records the HTTP detail string the source would send.
`unauthorized` and `invalidCredentialFormat` are the two 401 branches of
`get_api_key`; `invalidSessionId` and `invalidMessage` are pydantic 422
rejections; `modelInvocationFailed` is the 500 raised from the chat
handler except-block; `internalError` covers the other 500 paths. -/
inductive ApiError where
  | unauthorized (detail : String)
  | invalidCredentialFormat (detail : String)
  | invalidSessionId (detail : String)
  | invalidMessage (detail : String)
  | modelInvocationFailed (detail : String)
  | internalError (detail : String)
  deriving DecidableEq, Repr

/-- Body of a successful `/chat` response (timestamp omitted). -/
structure ChatResponse where
  response : String
  session_id : String
  status : String
  deriving DecidableEq, Repr

/-- Body of a `/init-session` or `/clear-session` response (timestamp omitted). -/
structure SessionResponse where
  session_id : String
  status : String
  message : String
  deriving DecidableEq, Repr

/-! ## Dictionary operations

Python dict lookup, assignment and deletion, on association lists. -/

/-- `d[k]` as an option: first binding of `k`. -/
def lookupKey (k : String) : List (String × α) → Option α
  | [] => none
  | (k', v) :: rest => if k' = k then some v else lookupKey k rest

/-- `d[k] = v`: replace the binding in place if present, else append. -/
def insertKey (k : String) (v : α) : List (String × α) → List (String × α)
  | [] => [(k, v)]
  | (k', v') :: rest =>
      if k' = k then (k, v) :: rest else (k', v') :: insertKey k v rest

/-- `del d[k]`: drop the binding of `k` (all of them; keys are unique on
every reachable state, where this agrees with Python deletion). -/
def eraseKey (k : String) (m : List (String × α)) : List (String × α) :=
  m.filter (fun p => p.1 ≠ k)

theorem lookupKey_insertKey_self (k : String) (v : α) (m : List (String × α)) :
    lookupKey k (insertKey k v m) = some v := by
  induction m with
  | nil => simp [insertKey, lookupKey]
  | cons p rest ih =>
      by_cases h : p.1 = k
      · simp [insertKey, lookupKey, h]
      · simp [insertKey, lookupKey, h, ih]

theorem lookupKey_insertKey_ne (k k' : String) (v : α) (m : List (String × α))
    (h : k' ≠ k) : lookupKey k' (insertKey k v m) = lookupKey k' m := by
  have h' : ¬(k = k') := fun e => h e.symm
  induction m with
  | nil => simp [insertKey, lookupKey, h']
  | cons p rest ih =>
      by_cases hp : p.1 = k
      · subst hp
        simp [insertKey, lookupKey, h, h']
      · by_cases hp' : p.1 = k'
        · simp [insertKey, lookupKey, h, h', hp, hp']
        · simp [insertKey, lookupKey, h, h', hp, hp', ih]

theorem lookupKey_eraseKey_self (k : String) (m : List (String × α)) :
    lookupKey k (eraseKey k m) = none := by
  induction m with
  | nil => simp [eraseKey, lookupKey]
  | cons p rest ih =>
      by_cases h : p.1 = k
      · simpa [eraseKey, lookupKey, h] using ih
      · simpa [eraseKey, lookupKey, h] using ih

theorem lookupKey_eraseKey_ne (k k' : String) (m : List (String × α))
    (h : k' ≠ k) : lookupKey k' (eraseKey k m) = lookupKey k' m := by
  have h' : ¬(k = k') := fun e => h e.symm
  induction m with
  | nil => simp [eraseKey, lookupKey]
  | cons p rest ih =>
      by_cases hp : p.1 = k
      · simpa [eraseKey, lookupKey, h, h', hp] using ih
      · by_cases hp' : p.1 = k'
        · simp [eraseKey, lookupKey, h, h', hp, hp']
        · simpa [eraseKey, lookupKey, h, h', hp, hp'] using ih

/-! ## Request validation -/

/-- Python `s.startswith(p)`. -/
def py_startswith (s p : String) : Bool :=
  s.data.take p.data.length == p.data

/-- Python string replace of a single-character pattern by the empty
string: every occurrence of `c` is removed. -/
def pyRemoveChar (c : Char) (s : List Char) : List Char :=
  s.filter (fun c' => c' ≠ c)

/-- Python `s.isalnum()`: nonempty and every character alphanumeric.
Python classifies by Unicode category; this embedding uses the ASCII
classifier, so it is faithful on ASCII strings, and every theorem about
the validator that quantifies over session ids restricts to ASCII. -/
def py_isalnum (s : List Char) : Bool :=
  !s.isEmpty && s.all Char.isAlphanum

/-- The pydantic constraints on `session_id` in `ChatRequest` and
`InitSessionRequest`: `min_length=1`, `max_length=100`, and the custom
validator, which removes every hyphen and underscore from the id and
requires the remaining string to satisfy isalnum. -/
def validate_session_id (v : String) : Bool :=
  1 ≤ v.length && v.length ≤ 100
    && py_isalnum (pyRemoveChar '_' (pyRemoveChar '-' v.data))

/-- The pydantic constraints on `message` in `ChatRequest`:
`min_length=1`, `max_length=2000`. -/
def validate_message (message : String) : Bool :=
  1 ≤ message.length && message.length ≤ 2000

/-- Detail string of the 401 raised when no Authorization header is sent. -/
def apiKeyRequiredDetail : String :=
  "API key required. Provide Gemini API key in Authorization header as Bearer token"

/-- Detail string of the 401 raised on a malformed key. -/
def apiKeyFormatDetail : String :=
  "Invalid API key format. Please provide a valid Gemini API key"

/-- Detail string of the pydantic rejection of a bad session id. -/
def sessionIdDetail : String :=
  "Session ID must contain only alphanumeric characters, hyphens, and underscores"

/-- Detail string of the pydantic rejection of a bad message length. -/
def messageLengthDetail : String :=
  "message must be 1 to 2000 characters"

/-- `get_api_key` of src/api.py: the security dependency.  `none` models a
request without an Authorization header (`HTTPBearer(auto_error=False)`
passes `None` through); an empty key or one not starting with `AI` is a
format rejection.  Both branches are HTTP 401 in the source; they carry
the two distinct detail strings above and map to the spec error kinds
`Unauthorized` and `InvalidCredentialFormat`. -/
def get_api_key (credentials : Option String) : Except ApiError String :=
  match credentials with
  | none => .error (.unauthorized apiKeyRequiredDetail)
  | some api_key =>
      if api_key = "" || !py_startswith api_key "AI" then
        .error (.invalidCredentialFormat apiKeyFormatDetail)
      else
        .ok api_key

/-! ## The tool module (src/tool.py) -/

/-- `get_diet_agent_chain(api_key)` of src/tool.py: builds the chain (a
closure over `api_key`, modelled by the key itself) and a fresh
`ConversationBufferMemory`, whose transcript starts empty. -/
def get_diet_agent_chain (api_key : String) : Chain × Memory :=
  (api_key, [])

/-- `memory.save_context({"input": m}, {"output": r})` of langchain
ConversationBufferMemory: append the human turn, then the AI turn. -/
def save_context (memory : Memory) (input output : String) : Memory :=
  memory ++ [⟨Role.user, input⟩, ⟨Role.assistant, output⟩]

/-! ## Endpoints (src/api.py)

Each endpoint function composes, in the order FastAPI runs them, the
security dependency, the pydantic body validation, and the handler body. -/

/-- `POST /init-session`.  On a malformed credential or session id the
request is rejected before the handler runs and the state is untouched;
an existing session id answers `exists` without rebuilding anything;
otherwise a fresh chain and memory are stored under the id in both maps. -/
def initialize_session (st : AppState) (credentials : Option String)
    (session_id : String) : AppState × Except ApiError SessionResponse :=
  match get_api_key credentials with
  | .error e => (st, .error e)
  | .ok api_key =>
      if validate_session_id session_id then
        if (lookupKey session_id st.agentChains).isSome then
          (st, .ok ⟨session_id, "exists", "Session already initialized"⟩)
        else
          let built := get_diet_agent_chain api_key
          (⟨insertKey session_id built.1 st.agentChains,
            insertKey session_id built.2 st.memories⟩,
           .ok ⟨session_id, "initialized",
                "Session successfully initialized. You can now start chatting!"⟩)
      else
        (st, .error (.invalidSessionId sessionIdDetail))

/-- Lines 239-264 of the chat handler, after auto-initialization: load
the chain and the memory of the session; read the history; invoke the
model; on success append both sides of the exchange via `save_context`
and answer the reply; on failure answer the 500 the except-block raises,
whose detail embeds the exception text.  The impossible-key branch
mirrors the KeyError a corrupted state would raise inside the same
except-block. -/
def chat_body (model : Model) (st1 : AppState) (session_id message : String) :
    AppState × Except ApiError ChatResponse :=
  match lookupKey session_id st1.agentChains,
        lookupKey session_id st1.memories with
  | some agent_chain, some memory =>
      match model agent_chain memory message with
      | .ok ai_response =>
          (⟨st1.agentChains,
            insertKey session_id (save_context memory message ai_response)
              st1.memories⟩,
           .ok ⟨ai_response, session_id, "success"⟩)
      | .error e =>
          (st1, .error (.modelInvocationFailed
            ("Failed to generate response: " ++ e)))
  | _, _ =>
      (st1, .error (.modelInvocationFailed
        "Failed to generate response: KeyError"))

/-- `POST /chat`.  After credential and body validation: auto-initialize
the session when `session_id` is not in `agent_chains` (storing a fresh
chain and memory under the id, exactly as initialize_session does), then
run the handler body `chat_body` on the resulting state. -/
def chat (model : Model) (st : AppState) (credentials : Option String)
    (session_id message : String) : AppState × Except ApiError ChatResponse :=
  match get_api_key credentials with
  | .error e => (st, .error e)
  | .ok api_key =>
      if validate_session_id session_id then
        if validate_message message then
          chat_body model
            (if (lookupKey session_id st.agentChains).isSome then st
             else
               ⟨insertKey session_id (get_diet_agent_chain api_key).1 st.agentChains,
                insertKey session_id (get_diet_agent_chain api_key).2 st.memories⟩)
            session_id message
        else
          (st, .error (.invalidMessage messageLengthDetail))
      else
        (st, .error (.invalidSessionId sessionIdDetail))

/-- `DELETE /clear-session/{session_id}`.  The path parameter is a bare
string: no credential and no session-id validation.  A present id is
deleted from both maps; an absent one answers `not_found` as a success.
The middle branch mirrors the KeyError of `del` on a state where the id
is only in `agent_chains` (the first `del` has already run). -/
def clear_session (st : AppState) (session_id : String) :
    AppState × Except ApiError SessionResponse :=
  if (lookupKey session_id st.agentChains).isSome then
    let chains := eraseKey session_id st.agentChains
    if (lookupKey session_id st.memories).isSome then
      (⟨chains, eraseKey session_id st.memories⟩,
       .ok ⟨session_id, "cleared", "Session cleared successfully"⟩)
    else
      (⟨chains, st.memories⟩,
       .error (.internalError "Failed to clear session: KeyError"))
  else
    (st, .ok ⟨session_id, "not_found", "Session not found"⟩)

/-! ## Vocabulary for the claims -/

/-- A character allowed by the session-id pattern of the spec:
ASCII alphanumeric, hyphen, or underscore. -/
def isSessionChar (c : Char) : Bool :=
  c.isAlphanum || c == '-' || c == '_'

/-- The session-id pattern the spec states, as a predicate: between 1
and 100 characters, all of them alphanumeric, hyphen, or underscore. -/
def matches_spec_session_pattern (s : String) : Bool :=
  1 ≤ s.length && s.length ≤ 100 && s.data.all isSessionChar

/-- Every character of the string is ASCII.  The embedding of the Python
isalnum classifier is exact on this domain. -/
def allAscii (s : String) : Bool :=
  s.data.all (fun c => c.toNat < 128)

/-- The implicit store invariant: `agent_chains` and `memories` hold
exactly the same session ids. -/
def sameKeys (st : AppState) : Prop :=
  ∀ k, (lookupKey k st.agentChains).isSome = (lookupKey k st.memories).isSome

/-! ## Concrete fixtures used by the witnesses -/

/-- A two-turn transcript of an ongoing session. -/
def demoTranscript : Memory :=
  [⟨Role.user, "hi"⟩, ⟨Role.assistant, "hello"⟩]

/-- A store holding one session, sess1, with the transcript above. -/
def demoState : AppState :=
  ⟨[("sess1", "AIkey1")], [("sess1", demoTranscript)]⟩

/-- A model capability that always answers. -/
def modelOk : Model := fun _ _ input => .ok ("echo " ++ input)

/-- A model capability that always fails, with exception text boom. -/
def modelFail : Model := fun _ _ _ => .error "boom"

/-- The empty store. -/
def emptyState : AppState := ⟨[], []⟩

/-! ## Claim theorems -/

/-- C1: for a session present in the store with transcript `T`, a chat
call whose model invocation succeeds answers exactly the model reply,
and the transcript of that session afterwards is `T` with a user turn
carrying the message and then an assistant turn carrying the reply
appended, of length `T.length + 2`. -/
theorem chat_appends_two_turns (model : Model) (st : AppState)
    (credentials : Option String) (sid msg api_key chainv : String)
    (T : Memory) (reply : String)
    (hk : get_api_key credentials = .ok api_key)
    (hsid : validate_session_id sid = true)
    (hmsg : validate_message msg = true)
    (hc : lookupKey sid st.agentChains = some chainv)
    (hm : lookupKey sid st.memories = some T)
    (hmodel : model chainv T msg = .ok reply) :
    (chat model st credentials sid msg).2 = .ok ⟨reply, sid, "success"⟩ ∧
    lookupKey sid (chat model st credentials sid msg).1.memories =
      some (T ++ [Turn.mk Role.user msg, Turn.mk Role.assistant reply]) ∧
    (T ++ [Turn.mk Role.user msg, Turn.mk Role.assistant reply]).length = T.length + 2 := by
  unfold chat chat_body
  rw [hk]
  simp [hsid, hmsg, hc, hm, hmodel, save_context, lookupKey_insertKey_self]

/-- C1 witness: a concrete chat call on the demo store. -/
theorem chat_appends_two_turns_witness :
    (chat modelOk demoState (some "AIkey1") "sess1" "hello").2 =
      .ok ⟨"echo hello", "sess1", "success"⟩ ∧
    lookupKey "sess1" (chat modelOk demoState (some "AIkey1") "sess1" "hello").1.memories =
      some (demoTranscript ++ [Turn.mk Role.user "hello", Turn.mk Role.assistant "echo hello"]) ∧
    (demoTranscript ++ [Turn.mk Role.user "hello", Turn.mk Role.assistant "echo hello"]).length =
      demoTranscript.length + 2 :=
  chat_appends_two_turns modelOk demoState (some "AIkey1") "sess1" "hello"
    "AIkey1" "AIkey1" demoTranscript "echo hello"
    rfl (by decide) (by decide) rfl rfl rfl

/-- C2: for a session present in the store, a chat call whose model
invocation fails leaves the whole store, in particular the transcript
of that session, exactly unchanged, and answers the
ModelInvocationFailed error carrying the underlying cause. -/
theorem chat_failure_is_atomic (model : Model) (st : AppState)
    (credentials : Option String) (sid msg api_key chainv : String)
    (T : Memory) (e : String)
    (hk : get_api_key credentials = .ok api_key)
    (hsid : validate_session_id sid = true)
    (hmsg : validate_message msg = true)
    (hc : lookupKey sid st.agentChains = some chainv)
    (hm : lookupKey sid st.memories = some T)
    (hmodel : model chainv T msg = .error e) :
    chat model st credentials sid msg =
      (st, .error (.modelInvocationFailed ("Failed to generate response: " ++ e))) := by
  unfold chat chat_body
  rw [hk]
  simp [hsid, hmsg, hc, hm, hmodel]

/-- C2 witness: a concrete failing chat call on the demo store. -/
theorem chat_failure_is_atomic_witness :
    chat modelFail demoState (some "AIkey1") "sess1" "hello" =
      (demoState, .error (.modelInvocationFailed ("Failed to generate response: " ++ "boom"))) :=
  chat_failure_is_atomic modelFail demoState (some "AIkey1") "sess1" "hello"
    "AIkey1" "AIkey1" demoTranscript "boom"
    rfl (by decide) (by decide) rfl rfl rfl

/-- Bridge from the spec pattern to the source validator: a string the
pattern rejects is rejected by the pydantic validator as well.  (The
converse fails: the validator also rejects ids made only of hyphens and
underscores, which the pattern accepts.) -/
theorem validate_session_id_false_of_pattern_false (s : String)
    (h : matches_spec_session_pattern s = false) :
    validate_session_id s = false := by
  unfold matches_spec_session_pattern at h
  unfold validate_session_id
  by_cases h1 : 1 ≤ s.length
  · by_cases h2 : s.length ≤ 100
    · have hall : ¬(s.data.all isSessionChar = true) := by
        intro hc
        simp [h1, h2, hc] at h
      rw [List.all_eq_true] at hall
      push_neg at hall
      obtain ⟨c, hcmem, hcbad⟩ := hall
      have hcbad' : ¬(c.isAlphanum = true) ∧ ¬(c = '-') ∧ ¬(c = '_') := by
        constructor
        · intro hc; exact hcbad (by simp [isSessionChar, hc])
        constructor
        · intro hc; exact hcbad (by simp [isSessionChar, hc])
        · intro hc; exact hcbad (by simp [isSessionChar, hc])
      have hcmem2 : c ∈ pyRemoveChar '_' (pyRemoveChar '-' s.data) := by
        simp [pyRemoveChar, List.mem_filter, hcmem, hcbad'.2.1, hcbad'.2.2]
      have hno : py_isalnum (pyRemoveChar '_' (pyRemoveChar '-' s.data)) = false := by
        unfold py_isalnum
        have : ¬((pyRemoveChar '_' (pyRemoveChar '-' s.data)).all Char.isAlphanum = true) := by
          intro hAll
          exact hcbad'.1 (List.all_eq_true.mp hAll c hcmem2)
        simp [Bool.not_eq_true] at this
        simp [this]
      simp [hno]
    · simp [h2]
  · simp [h1]

/-- C3 counterexample: the clear operation performs no session-id
validation.  The string with a space fails the spec pattern, yet
clearing it is answered with status not_found as a success, with the
store untouched, not with an InvalidSessionId rejection. -/
theorem clear_session_skips_validation :
    matches_spec_session_pattern "a b" = false ∧
    clear_session demoState "a b" =
      (demoState, .ok ⟨"a b", "not_found", "Session not found"⟩) :=
  ⟨by decide, rfl⟩

/-- C3 (amended): for every ASCII string that fails the pattern, the
initialize and chat operations reject it with InvalidSessionId and do
not touch the store; the clear operation does not validate the id at
all and, the id being absent from the store, answers not_found and
leaves the store unchanged.  (Non-ASCII ids fall outside the statement:
the Python isalnum used by the source is Unicode-aware and accepts some
ids the ASCII pattern rejects.) -/
theorem invalid_session_id_rejected_before_mutation (model : Model)
    (st : AppState) (credentials : Option String) (sid msg api_key : String)
    (_hascii : allAscii sid = true)
    (hbad : matches_spec_session_pattern sid = false)
    (hk : get_api_key credentials = .ok api_key) :
    initialize_session st credentials sid =
      (st, .error (.invalidSessionId sessionIdDetail)) ∧
    chat model st credentials sid msg =
      (st, .error (.invalidSessionId sessionIdDetail)) ∧
    (lookupKey sid st.agentChains = none →
      clear_session st sid = (st, .ok ⟨sid, "not_found", "Session not found"⟩)) := by
  have hv := validate_session_id_false_of_pattern_false sid hbad
  refine ⟨?_, ?_, ?_⟩
  · unfold initialize_session
    rw [hk]
    simp [hv]
  · unfold chat
    rw [hk]
    simp [hv]
  · intro habs
    unfold clear_session
    simp [habs]

/-- C3 witness: the space-bearing id on concrete stores. -/
theorem invalid_session_id_rejected_before_mutation_witness :
    initialize_session demoState (some "AIkey1") "a b" =
      (demoState, .error (.invalidSessionId sessionIdDetail)) ∧
    chat modelOk demoState (some "AIkey1") "a b" "hello" =
      (demoState, .error (.invalidSessionId sessionIdDetail)) ∧
    (lookupKey "a b" demoState.agentChains = none →
      clear_session demoState "a b" =
        (demoState, .ok ⟨"a b", "not_found", "Session not found"⟩)) :=
  invalid_session_id_rejected_before_mutation modelOk demoState
    (some "AIkey1") "a b" "hello" "AIkey1" (by decide) (by decide) rfl

/-- C4: a chat call against a session id absent from the store is the
explicit initialization followed by the same chat call: the
initialization succeeds with status initialized, and the chat response
and the final store are identical on the two paths. -/
theorem chat_auto_initialization_equiv (model : Model) (st : AppState)
    (credentials : Option String) (sid msg api_key : String)
    (hk : get_api_key credentials = .ok api_key)
    (hsid : validate_session_id sid = true)
    (hmsg : validate_message msg = true)
    (habs : lookupKey sid st.agentChains = none) :
    (initialize_session st credentials sid).2 =
      .ok ⟨sid, "initialized",
           "Session successfully initialized. You can now start chatting!"⟩ ∧
    chat model st credentials sid msg =
      chat model (initialize_session st credentials sid).1 credentials sid msg := by
  unfold initialize_session chat
  rw [hk]
  simp [hsid, hmsg, habs, get_diet_agent_chain, lookupKey_insertKey_self]

/-- C4 witness: a fresh session id on the demo store. -/
theorem chat_auto_initialization_equiv_witness :
    (initialize_session demoState (some "AIkey1") "fresh").2 =
      .ok ⟨"fresh", "initialized",
           "Session successfully initialized. You can now start chatting!"⟩ ∧
    chat modelOk demoState (some "AIkey1") "fresh" "hello" =
      chat modelOk (initialize_session demoState (some "AIkey1") "fresh").1
        (some "AIkey1") "fresh" "hello" :=
  chat_auto_initialization_equiv modelOk demoState (some "AIkey1")
    "fresh" "hello" "AIkey1" rfl (by decide) (by decide) rfl

/-- C5: initializing a session id that is already present answers the
status exists as a success and returns the store unchanged, so the
transcript of that session is preserved exactly. -/
theorem initialize_session_idempotent (st : AppState)
    (credentials : Option String) (sid api_key chainv : String)
    (hk : get_api_key credentials = .ok api_key)
    (hsid : validate_session_id sid = true)
    (hc : lookupKey sid st.agentChains = some chainv) :
    initialize_session st credentials sid =
      (st, .ok ⟨sid, "exists", "Session already initialized"⟩) ∧
    lookupKey sid (initialize_session st credentials sid).1.memories =
      lookupKey sid st.memories := by
  unfold initialize_session
  rw [hk]
  simp [hsid, hc]

/-- C5 witness: re-initializing sess1 of the demo store. -/
theorem initialize_session_idempotent_witness :
    initialize_session demoState (some "AIkey1") "sess1" =
      (demoState, .ok ⟨"sess1", "exists", "Session already initialized"⟩) ∧
    lookupKey "sess1" (initialize_session demoState (some "AIkey1") "sess1").1.memories =
      lookupKey "sess1" demoState.memories :=
  initialize_session_idempotent demoState (some "AIkey1") "sess1"
    "AIkey1" "AIkey1" rfl (by decide) rfl

/-- C6: clearing an absent session answers not_found as a success and
leaves the store unchanged; clearing a present session answers cleared,
removes the session from both maps so that its lookup afterwards is
none, and leaves the entry of every other session id unchanged. -/
theorem clear_session_semantics (st : AppState) (sid : String) :
    (lookupKey sid st.agentChains = none →
      clear_session st sid = (st, .ok ⟨sid, "not_found", "Session not found"⟩)) ∧
    (∀ chainv T, lookupKey sid st.agentChains = some chainv →
      lookupKey sid st.memories = some T →
      (clear_session st sid).2 =
        .ok ⟨sid, "cleared", "Session cleared successfully"⟩ ∧
      lookupKey sid (clear_session st sid).1.agentChains = none ∧
      lookupKey sid (clear_session st sid).1.memories = none ∧
      ∀ k, k ≠ sid →
        lookupKey k (clear_session st sid).1.agentChains = lookupKey k st.agentChains ∧
        lookupKey k (clear_session st sid).1.memories = lookupKey k st.memories) := by
  constructor
  · intro habs
    unfold clear_session
    simp [habs]
  · intro chainv T hc hm
    unfold clear_session
    simp only [hc, hm, Option.isSome_some, if_true]
    refine ⟨trivial, ?_, ?_, ?_⟩
    · exact lookupKey_eraseKey_self sid st.agentChains
    · exact lookupKey_eraseKey_self sid st.memories
    · intro k hk
      exact ⟨lookupKey_eraseKey_ne sid k st.agentChains hk,
             lookupKey_eraseKey_ne sid k st.memories hk⟩

/-- C6 witness: clearing an absent and a present session of the demo
store. -/
theorem clear_session_semantics_witness :
    clear_session demoState "nope" =
      (demoState, .ok ⟨"nope", "not_found", "Session not found"⟩) ∧
    (clear_session demoState "sess1").2 =
      .ok ⟨"sess1", "cleared", "Session cleared successfully"⟩ ∧
    lookupKey "sess1" (clear_session demoState "sess1").1.memories = none ∧
    lookupKey "other" (clear_session demoState "sess1").1.agentChains =
      lookupKey "other" demoState.agentChains :=
  ⟨(clear_session_semantics demoState "nope").1 rfl,
   ((clear_session_semantics demoState "sess1").2 "AIkey1" demoTranscript rfl rfl).1,
   ((clear_session_semantics demoState "sess1").2 "AIkey1" demoTranscript rfl rfl).2.2.1,
   (((clear_session_semantics demoState "sess1").2 "AIkey1" demoTranscript rfl rfl).2.2.2
     "other" (by decide)).1⟩

/-- C7: the chat handler catches an internal failure and answers an
error whose detail embeds the text of the underlying exception, instead
of the generic body the outermost handler would send.  Evaluated at a
concrete failing invocation whose exception text is boom. -/
theorem chat_error_response_embeds_exception_text :
    chat modelFail demoState (some "AIkey1") "sess1" "hello" =
      (demoState, .error (.modelInvocationFailed
        ("Failed to generate response: " ++ "boom"))) ∧
    "Failed to generate response: " ++ "boom" ≠ "Internal server error occurred" :=
  ⟨rfl, by decide⟩

/-- C8: a request to initialize or chat with no credential is rejected
as unauthorized, and one whose credential is empty or lacks the
provider prefix is rejected as an invalid credential format; in every
case the store is returned untouched and the response is the same for
every store, so the rejection precedes any use of the store. -/
theorem credential_rejected_before_store_access (model : Model)
    (st : AppState) (credentials : Option String) (sid msg : String) :
    (credentials = none →
      initialize_session st credentials sid =
        (st, .error (.unauthorized apiKeyRequiredDetail)) ∧
      chat model st credentials sid msg =
        (st, .error (.unauthorized apiKeyRequiredDetail))) ∧
    (∀ k, credentials = some k → (k = "" ∨ py_startswith k "AI" = false) →
      initialize_session st credentials sid =
        (st, .error (.invalidCredentialFormat apiKeyFormatDetail)) ∧
      chat model st credentials sid msg =
        (st, .error (.invalidCredentialFormat apiKeyFormatDetail))) := by
  constructor
  · rintro rfl
    exact ⟨rfl, rfl⟩
  · rintro k rfl hbad
    have hk : get_api_key (some k) =
        .error (.invalidCredentialFormat apiKeyFormatDetail) := by
      unfold get_api_key
      rcases hbad with h | h
      · simp [h]
      · simp [h]
    constructor
    · unfold initialize_session
      rw [hk]
    · unfold chat
      rw [hk]

/-- C8 witness: a missing credential and a wrong-prefix credential. -/
theorem credential_rejected_before_store_access_witness :
    initialize_session demoState none "sess1" =
      (demoState, .error (.unauthorized apiKeyRequiredDetail)) ∧
    chat modelOk demoState (some "sk-123") "sess1" "hello" =
      (demoState, .error (.invalidCredentialFormat apiKeyFormatDetail)) :=
  ⟨((credential_rejected_before_store_access modelOk demoState none
      "sess1" "hello").1 rfl).1,
   ((credential_rejected_before_store_access modelOk demoState (some "sk-123")
      "sess1" "hello").2 "sk-123" rfl (Or.inr (by decide))).2⟩

/-- Inserting the same key on both sides preserves the key-set
invariant. -/
theorem sameKeys_insert (st : AppState) (k : String) (v : Chain) (w : Memory)
    (h : sameKeys st) :
    sameKeys ⟨insertKey k v st.agentChains, insertKey k w st.memories⟩ := by
  intro k'
  by_cases hk : k' = k
  · subst hk
    simp [lookupKey_insertKey_self]
  · simp only []
    rw [lookupKey_insertKey_ne k k' v st.agentChains hk,
        lookupKey_insertKey_ne k k' w st.memories hk]
    exact h k'

/-- The chat handler body preserves the key-set invariant. -/
theorem sameKeys_chat_body (model : Model) (st1 : AppState) (sid msg : String)
    (h : sameKeys st1) : sameKeys (chat_body model st1 sid msg).1 := by
  unfold chat_body
  cases hc : lookupKey sid st1.agentChains with
  | none =>
      cases hm : lookupKey sid st1.memories with
      | none => intro k'; simp only [hc, hm]; exact h k'
      | some mem => intro k'; simp only [hc, hm]; exact h k'
  | some chainv =>
      cases hm : lookupKey sid st1.memories with
      | none => intro k'; simp only [hc, hm]; exact h k'
      | some mem =>
          cases hr : model chainv mem msg with
          | error e => intro k'; simp only [hc, hm, hr]; exact h k'
          | ok reply =>
              intro k'
              simp only [hc, hm, hr]
              by_cases hk : k' = sid
              · subst hk
                simp [lookupKey_insertKey_self, hc]
              · rw [lookupKey_insertKey_ne sid k' _ st1.memories hk]
                exact h k'

/-- The initialize endpoint preserves the key-set invariant. -/
theorem sameKeys_initialize_session (st : AppState)
    (credentials : Option String) (sid : String)
    (h : sameKeys st) : sameKeys (initialize_session st credentials sid).1 := by
  unfold initialize_session
  cases hge : get_api_key credentials with
  | error e => exact h
  | ok api_key =>
      by_cases hv : validate_session_id sid = true
      · by_cases hex : (lookupKey sid st.agentChains).isSome = true
        · simpa [hv, hex] using h
        · have hex' : (lookupKey sid st.agentChains).isSome = false := by
            simpa using hex
          simpa [hv, hex', get_diet_agent_chain] using
            sameKeys_insert st sid api_key [] h
      · have hv' : validate_session_id sid = false := by simpa using hv
        simpa [hv'] using h

/-- The chat endpoint preserves the key-set invariant. -/
theorem sameKeys_chat (model : Model) (st : AppState)
    (credentials : Option String) (sid msg : String)
    (h : sameKeys st) : sameKeys (chat model st credentials sid msg).1 := by
  unfold chat
  cases hge : get_api_key credentials with
  | error e => exact h
  | ok api_key =>
      by_cases hv : validate_session_id sid = true
      · by_cases hm2 : validate_message msg = true
        · by_cases hex : (lookupKey sid st.agentChains).isSome = true
          · simpa [hv, hm2, hex] using sameKeys_chat_body model st sid msg h
          · have hex' : (lookupKey sid st.agentChains).isSome = false := by
              simpa using hex
            simpa [hv, hm2, hex', get_diet_agent_chain] using
              sameKeys_chat_body model
                ⟨insertKey sid api_key st.agentChains,
                 insertKey sid [] st.memories⟩ sid msg
                (sameKeys_insert st sid api_key [] h)
        · have hm2' : validate_message msg = false := by simpa using hm2
          simpa [hv, hm2'] using h
      · have hv' : validate_session_id sid = false := by simpa using hv
        simpa [hv'] using h

/-- The clear endpoint preserves the key-set invariant. -/
theorem sameKeys_clear_session (st : AppState) (sid : String)
    (h : sameKeys st) : sameKeys (clear_session st sid).1 := by
  unfold clear_session
  by_cases hex : (lookupKey sid st.agentChains).isSome = true
  · have hmem : (lookupKey sid st.memories).isSome = true := by
      rw [← h sid]; exact hex
    simp only [hex, hmem, if_true]
    intro k'
    by_cases hk : k' = sid
    · subst hk
      simp [lookupKey_eraseKey_self]
    · simp only []
      rw [lookupKey_eraseKey_ne sid k' st.agentChains hk,
          lookupKey_eraseKey_ne sid k' st.memories hk]
      exact h k'
  · have hex' : (lookupKey sid st.agentChains).isSome = false := by
      simpa using hex
    simpa [hex'] using h

/-- C10: every operation of the store preserves the implicit invariant
that `agent_chains` and `memories` hold exactly the same session ids. -/
theorem store_operations_preserve_key_set (model : Model) (st : AppState)
    (credentials : Option String) (sid msg : String) (h : sameKeys st) :
    sameKeys (initialize_session st credentials sid).1 ∧
    sameKeys (chat model st credentials sid msg).1 ∧
    sameKeys (clear_session st sid).1 :=
  ⟨sameKeys_initialize_session st credentials sid h,
   sameKeys_chat model st credentials sid msg h,
   sameKeys_clear_session st sid h⟩

/-- C10 witness: the three operations on the empty store. -/
theorem store_operations_preserve_key_set_witness :
    sameKeys (initialize_session emptyState (some "AIkey1") "s1").1 ∧
    sameKeys (chat modelOk emptyState (some "AIkey1") "s1" "hello").1 ∧
    sameKeys (clear_session emptyState "s1").1 :=
  store_operations_preserve_key_set modelOk emptyState (some "AIkey1")
    "s1" "hello" (fun _ => rfl)

end Dietitian
